import Mathlib

/-!
Verification of the hotel-reservation data store in
`src/actividad_6/a01794225_A6.2.py`.

The Python module defines three record classes (`Hotel`, `Customer`,
`Reservation`) with `to_dict` / `from_dict` conversions, a `DataManager`
persisting JSON-encoded lists of dictionaries, and a
`HotelReservationSystem` holding the three in-memory collections and
exposing CRUD operations.  Every mutating operation updates the in-memory
lists and then calls `_save_all`, which only writes the files and does not
change in-memory state; the theorems below are therefore stated over the
in-memory collections, with the `DataManager` file behaviour modelled
separately.

Python integers are unbounded, so identifiers and room counts are `Int`.
-/

/-- Record class `Hotel` (lines 13-42 of the source).  The constructor sets
`reservations = []`; here the field is explicit.  The `reservations` list
holds customer identifiers (integers) appended by `reserve_room`. -/
structure Hotel where
  hotel_id : Int
  name : String
  location : String
  rooms : Int
  reservations : List Int
deriving DecidableEq, Repr

/-- Record class `Customer` (lines 45-67 of the source). -/
structure Customer where
  customer_id : Int
  name : String
  email : String
deriving DecidableEq, Repr

/-- Record class `Reservation` (lines 70-90 of the source). -/
structure Reservation where
  reservation_id : Int
  customer_id : Int
  hotel_id : Int
deriving DecidableEq, Repr

/-- JSON values, as produced by Python's `json` module.  Numbers are
restricted to integers, which is all this program ever stores. -/
inductive Json where
  | null
  | bool (b : Bool)
  | num (n : Int)
  | str (s : String)
  | arr (elems : List Json)
  | obj (fields : List (String × Json))
deriving Repr

/-- Python dictionary lookup `data[key]`: the first binding of `key`
(keys are unique in a Python dict, so first match is the match). -/
def jlookup (fields : List (String × Json)) (key : String) : Option Json :=
  (fields.find? (fun p => p.1 == key)).map (fun p => p.2)

/-- Reading an integer out of a JSON value. -/
def Json.asInt : Json → Option Int
  | .num n => some n
  | _ => none

/-- Reading a string out of a JSON value. -/
def Json.asStr : Json → Option String
  | .str s => some s
  | _ => none

/-- Decoding a JSON array of integers (a hotel's `reservations` field). -/
def decodeIntList : List Json → Option (List Int)
  | [] => some []
  | j :: rest => do
      let n ← j.asInt
      let ns ← decodeIntList rest
      pure (n :: ns)

/-- Source `Hotel.to_dict` (lines 26-34): the dictionary has exactly the five
fields, in this insertion order. -/
def Hotel.to_dict (h : Hotel) : Json :=
  .obj [("hotel_id", .num h.hotel_id),
        ("name", .str h.name),
        ("location", .str h.location),
        ("rooms", .num h.rooms),
        ("reservations", .arr (h.reservations.map Json.num))]

/-- Source `Hotel.from_dict` (lines 36-42): dictionary lookups of the five fields;
a missing key raises `KeyError` in Python, modelled as `none`.  Python
performs no type check on the looked-up values; the typed model requires
the values to have the record's field types, which is the case for every
dictionary this program writes. -/
def Hotel.from_dict : Json → Option Hotel
  | .obj fields => do
      let hid ← (jlookup fields "hotel_id").bind Json.asInt
      let hname ← (jlookup fields "name").bind Json.asStr
      let loc ← (jlookup fields "location").bind Json.asStr
      let rms ← (jlookup fields "rooms").bind Json.asInt
      let res ← (jlookup fields "reservations").bind (fun j =>
        match j with
        | .arr l => decodeIntList l
        | _ => none)
      pure { hotel_id := hid, name := hname, location := loc,
             rooms := rms, reservations := res }
  | _ => none

/-- Source `Customer.to_dict` (lines 56-62). -/
def Customer.to_dict (c : Customer) : Json :=
  .obj [("customer_id", .num c.customer_id),
        ("name", .str c.name),
        ("email", .str c.email)]

/-- Source `Customer.from_dict` (lines 64-67). -/
def Customer.from_dict : Json → Option Customer
  | .obj fields => do
      let cid ← (jlookup fields "customer_id").bind Json.asInt
      let cname ← (jlookup fields "name").bind Json.asStr
      let mail ← (jlookup fields "email").bind Json.asStr
      pure { customer_id := cid, name := cname, email := mail }
  | _ => none

/-- Source `Reservation.to_dict` (lines 78-84). -/
def Reservation.to_dict (r : Reservation) : Json :=
  .obj [("reservation_id", .num r.reservation_id),
        ("customer_id", .num r.customer_id),
        ("hotel_id", .num r.hotel_id)]

/-- Source `Reservation.from_dict` (lines 86-90). -/
def Reservation.from_dict : Json → Option Reservation
  | .obj fields => do
      let rid ← (jlookup fields "reservation_id").bind Json.asInt
      let cid ← (jlookup fields "customer_id").bind Json.asInt
      let hid ← (jlookup fields "hotel_id").bind Json.asInt
      pure { reservation_id := rid, customer_id := cid, hotel_id := hid }
  | _ => none

/-- The observable content of a persisted file as `json.load` sees it:
either content that decodes to a JSON value, or content on which reading
raises `json.JSONDecodeError` (or `IOError`), the two exception types
`load_from_file` catches. -/
inductive FileContent where
  | json (j : Json)
  | malformed
deriving Repr

/-- Source `DataManager.save_to_file` (lines 95-99): `json.dump` of the list of
dictionaries, overwriting the file, so the resulting file content is the
JSON array of the given records. -/
def DataManager.save_to_file (data : List Json) : FileContent :=
  FileContent.json (Json.arr data)

/-- Result of `DataManager.load_from_file`: the returned value, plus
whether the `except` branch printed its diagnostic. -/
structure LoadResult where
  value : Json
  diagnostic : Bool
deriving Repr

/-- Source `DataManager.load_from_file` (lines 101-111): `none` models a
nonexistent file (`os.path.exists` false, returns `[]`); successful
decoding returns the decoded value unchanged (no check that it is a
list); decode/read failure prints a diagnostic and returns `[]`.  The
function is total: no exception escapes. -/
def DataManager.load_from_file : Option FileContent → LoadResult
  | none => { value := Json.arr [], diagnostic := false }
  | some (FileContent.json j) => { value := j, diagnostic := false }
  | some FileContent.malformed => { value := Json.arr [], diagnostic := true }

/-- The in-memory state of `HotelReservationSystem` (lines 114-136): the
three collections.  `_save_all` (lines 138-157) persists them without
modifying them, so the mutating operations below are modelled as
transformers of this state. -/
structure HotelReservationSystem where
  hotels : List Hotel
  customers : List Customer
  reservations : List Reservation
deriving DecidableEq, Repr

/-- Source `create_hotel` (lines 159-162): `self.hotels.append(hotel)`. -/
def HotelReservationSystem.create_hotel (s : HotelReservationSystem)
    (h : Hotel) : HotelReservationSystem :=
  { s with hotels := s.hotels ++ [h] }

/-- Source `delete_hotel` (lines 164-167): list-comprehension filter keeping
hotels whose id differs. -/
def HotelReservationSystem.delete_hotel (s : HotelReservationSystem)
    (hotel_id : Int) : HotelReservationSystem :=
  { s with hotels := s.hotels.filter (fun h => h.hotel_id != hotel_id) }

/-- The `for` loop of `display_hotel` (lines 171-174): return the first
matching hotel's `to_dict`, else fall through to `None`. -/
def displayHotelGo : List Hotel → Int → Option Json
  | [], _ => none
  | h :: rest, i => if h.hotel_id = i then some h.to_dict else displayHotelGo rest i

/-- Source `display_hotel` (lines 169-174). -/
def HotelReservationSystem.display_hotel (s : HotelReservationSystem)
    (hotel_id : Int) : Option Json :=
  displayHotelGo s.hotels hotel_id

/-- Python truthiness test `if arg:` for an optional string parameter
(default `None`): true only for a present, non-empty string. -/
def strTruthy : Option String → Bool
  | none => false
  | some s => s != ""

/-- Python truthiness test `if arg:` for an optional integer parameter
(default `None`): true only for a present, non-zero integer. -/
def intTruthy : Option Int → Bool
  | none => false
  | some n => n != 0

/-- One `if arg: field = arg` step for a string field. -/
def applyStrField (arg : Option String) (current : String) : String :=
  match arg with
  | some s => if s != "" then s else current
  | none => current

/-- One `if arg: field = arg` step for an integer field. -/
def applyIntField (arg : Option Int) (current : Int) : Int :=
  match arg with
  | some n => if n != 0 then n else current
  | none => current

/-- Source `modify_hotel` (lines 176-187): the loop visits every hotel (no
`break`), updating each matching hotel's fields guarded by truthiness. -/
def HotelReservationSystem.modify_hotel (s : HotelReservationSystem)
    (hotel_id : Int) (name location : Option String) (rooms : Option Int) :
    HotelReservationSystem :=
  { s with hotels := s.hotels.map (fun h =>
      if h.hotel_id = hotel_id then
        { h with name := applyStrField name h.name,
                 location := applyStrField location h.location,
                 rooms := applyIntField rooms h.rooms }
      else h) }

/-- Source `reserve_room` (lines 189-195): append the reservation, then append
its customer id to every hotel with the matching hotel id. -/
def HotelReservationSystem.reserve_room (s : HotelReservationSystem)
    (r : Reservation) : HotelReservationSystem :=
  { s with reservations := s.reservations ++ [r],
           hotels := s.hotels.map (fun h =>
             if h.hotel_id = r.hotel_id then
               { h with reservations := h.reservations ++ [r.customer_id] }
             else h) }

/-- Source `cancel_reservation` (lines 197-208): filter the reservation list by
`reservation_id`, and filter every hotel's `reservations` list (which
holds customer ids) by the same value. -/
def HotelReservationSystem.cancel_reservation (s : HotelReservationSystem)
    (reservation_id : Int) : HotelReservationSystem :=
  { s with reservations :=
      s.reservations.filter (fun r => r.reservation_id != reservation_id),
           hotels := s.hotels.map (fun h =>
             { h with reservations :=
                 h.reservations.filter (fun cid => cid != reservation_id) }) }

/-- Source `create_customer` (lines 210-213). -/
def HotelReservationSystem.create_customer (s : HotelReservationSystem)
    (c : Customer) : HotelReservationSystem :=
  { s with customers := s.customers ++ [c] }

/-- Source `delete_customer` (lines 215-221). -/
def HotelReservationSystem.delete_customer (s : HotelReservationSystem)
    (customer_id : Int) : HotelReservationSystem :=
  { s with customers :=
      s.customers.filter (fun c => c.customer_id != customer_id) }

/-- The `for` loop of `display_customer` (lines 225-228). -/
def displayCustomerGo : List Customer → Int → Option Json
  | [], _ => none
  | c :: rest, i =>
      if c.customer_id = i then some c.to_dict else displayCustomerGo rest i

/-- Source `display_customer` (lines 223-228). -/
def HotelReservationSystem.display_customer (s : HotelReservationSystem)
    (customer_id : Int) : Option Json :=
  displayCustomerGo s.customers customer_id

/-- Source `modify_customer` (lines 230-239). -/
def HotelReservationSystem.modify_customer (s : HotelReservationSystem)
    (customer_id : Int) (name email : Option String) :
    HotelReservationSystem :=
  { s with customers := s.customers.map (fun c =>
      if c.customer_id = customer_id then
        { c with name := applyStrField name c.name,
                 email := applyStrField email c.email }
      else c) }

/-! ### Helper lemmas -/

/-- Decoding undoes encoding of an integer list. -/
theorem decodeIntList_map_num (l : List Int) :
    decodeIntList (l.map Json.num) = some l := by
  induction l with
  | nil => rfl
  | cons n rest ih => simp [decodeIntList, Json.asInt, ih]

/-- A hotel survives the dictionary round trip. -/
theorem hotel_from_to_dict (h : Hotel) : Hotel.from_dict h.to_dict = some h := by
  simp [Hotel.from_dict, Hotel.to_dict, jlookup, List.find?, Json.asInt,
    Json.asStr, decodeIntList_map_num]

/-- A customer survives the dictionary round trip. -/
theorem customer_from_to_dict (c : Customer) :
    Customer.from_dict c.to_dict = some c := by
  simp [Customer.from_dict, Customer.to_dict, jlookup, List.find?,
    Json.asInt, Json.asStr]

/-- A reservation survives the dictionary round trip. -/
theorem reservation_from_to_dict (r : Reservation) :
    Reservation.from_dict r.to_dict = some r := by
  simp [Reservation.from_dict, Reservation.to_dict, jlookup, List.find?,
    Json.asInt]

/-- The empty display loop result when no hotel matches. -/
theorem displayHotelGo_eq_none (l : List Hotel) (i : Int)
    (hno : ∀ h ∈ l, h.hotel_id ≠ i) : displayHotelGo l i = none := by
  induction l with
  | nil => rfl
  | cons h rest ih =>
      simp only [displayHotelGo, if_neg (hno h (List.mem_cons_self h rest))]
      exact ih (fun h0 hh0 => hno h0 (List.mem_cons_of_mem h hh0))

/-- The display loop skips a leading block of non-matching hotels. -/
theorem displayHotelGo_append (l l2 : List Hotel) (i : Int)
    (hno : ∀ h ∈ l, h.hotel_id ≠ i) :
    displayHotelGo (l ++ l2) i = displayHotelGo l2 i := by
  induction l with
  | nil => rfl
  | cons h rest ih =>
      simp only [List.cons_append, displayHotelGo,
        if_neg (hno h (List.mem_cons_self h rest))]
      exact ih (fun h0 hh0 => hno h0 (List.mem_cons_of_mem h hh0))

/-- The display loop is first-match search. -/
theorem displayHotelGo_eq_find (l : List Hotel) (i : Int) :
    displayHotelGo l i = (l.find? (fun h => h.hotel_id == i)).map Hotel.to_dict := by
  induction l with
  | nil => rfl
  | cons h rest ih =>
      by_cases hc : h.hotel_id = i
      · simp [displayHotelGo, hc, List.find?_cons_of_pos]
      · simp only [displayHotelGo, if_neg hc, ih]
        rw [List.find?_cons_of_neg]
        simp [hc]

/-- The customer display loop result when no customer matches. -/
theorem displayCustomerGo_eq_none (l : List Customer) (i : Int)
    (hno : ∀ c ∈ l, c.customer_id ≠ i) : displayCustomerGo l i = none := by
  induction l with
  | nil => rfl
  | cons c rest ih =>
      simp only [displayCustomerGo, if_neg (hno c (List.mem_cons_self c rest))]
      exact ih (fun c0 hc0 => hno c0 (List.mem_cons_of_mem c hc0))

/-! ### Concrete sample data (used by witness theorems) -/

/-- The hotel built in the source's test `setUp`. -/
def sampleHotel : Hotel :=
  { hotel_id := 1, name := "Test Hotel", location := "Test City",
    rooms := 10, reservations := [] }

/-- A second hotel with a distinct identifier. -/
def otherHotel : Hotel :=
  { hotel_id := 2, name := "Other Hotel", location := "Other City",
    rooms := 5, reservations := [7] }

/-- A hotel sharing `sampleHotel`'s identifier (duplicates are allowed). -/
def dupHotel : Hotel :=
  { hotel_id := 1, name := "Dup Hotel", location := "Dup City",
    rooms := 3, reservations := [] }

/-- The customer built in the source's test `setUp`. -/
def sampleCustomer : Customer :=
  { customer_id := 1, name := "Test User", email := "test.user@example.com" }

/-- The reservation built in the source's test `setUp`. -/
def sampleReservation : Reservation :=
  { reservation_id := 1, customer_id := 1, hotel_id := 1 }

/-- A second reservation with a distinct identifier. -/
def otherReservation : Reservation :=
  { reservation_id := 2, customer_id := 1, hotel_id := 1 }

/-- A store with no records, as after loading from absent files. -/
def emptySys : HotelReservationSystem :=
  { hotels := [], customers := [], reservations := [] }

/-- A store populated as by the source's reservation tests, after
`reserve_room` has pushed customer id 1 onto the hotel's list. -/
def sampleSys : HotelReservationSystem :=
  { hotels := [{ sampleHotel with reservations := [1] }, otherHotel],
    customers := [sampleCustomer],
    reservations := [sampleReservation, otherReservation] }

/-! ### Claim theorems -/

/-- Claim C1: for every store state and reservation id `r`,
`cancel_reservation r` removes every reservation whose `reservation_id`
equals `r` from the reservation collection, and removes every entry equal
to `r` from every hotel's `reservations` list (entries are customer ids,
removed whenever they numerically equal the cancelled reservation id);
customers are untouched. -/
theorem cancel_reservation_correct (s : HotelReservationSystem) (rid : Int) :
    (s.cancel_reservation rid).reservations =
      s.reservations.filter (fun r => r.reservation_id != rid) ∧
    (s.cancel_reservation rid).hotels = s.hotels.map (fun h =>
      { h with reservations :=
          h.reservations.filter (fun cid => cid != rid) }) ∧
    (s.cancel_reservation rid).customers = s.customers ∧
    (∀ r ∈ (s.cancel_reservation rid).reservations, r.reservation_id ≠ rid) ∧
    (∀ h ∈ (s.cancel_reservation rid).hotels, rid ∉ h.reservations) := by
  refine ⟨rfl, rfl, rfl, ?_, ?_⟩
  · intro r hr
    simp only [HotelReservationSystem.cancel_reservation, List.mem_filter,
      bne_iff_ne, ne_eq] at hr
    exact hr.2
  · intro h hh
    simp only [HotelReservationSystem.cancel_reservation, List.mem_map] at hh
    obtain ⟨h0, _, rfl⟩ := hh
    simp [List.mem_filter]

/-- Claim C1 witness: in the populated sample store, cancelling
reservation id 1 leaves only the reservation with id 2, and removes the
value 1 from the first hotel's list. -/
theorem cancel_reservation_correct_witness :
    otherReservation.reservation_id ≠ 1 ∧
    (1 : Int) ∉
      ({ sampleHotel with reservations := ([] : List Int) }).reservations :=
  ⟨(cancel_reservation_correct sampleSys 1).2.2.2.1 otherReservation
      (by decide),
    (cancel_reservation_correct sampleSys 1).2.2.2.2
      { sampleHotel with reservations := ([] : List Int) } (by decide)⟩

/-- Claim C2: for every store state and reservation `v`, `reserve_room v`
appends `v` to the reservation collection unconditionally, and appends
`v`'s customer id to the `reservations` list of every hotel whose id
equals `v`'s hotel id; customers are untouched, no existence or capacity
check is made (the equations hold for every state, whatever the room
counts), and when no hotel matches, the hotel collection is unchanged
while the reservation is still appended. -/
theorem reserve_room_correct (s : HotelReservationSystem) (v : Reservation) :
    (s.reserve_room v).reservations = s.reservations ++ [v] ∧
    (s.reserve_room v).hotels = s.hotels.map (fun h =>
      if h.hotel_id = v.hotel_id then
        { h with reservations := h.reservations ++ [v.customer_id] }
      else h) ∧
    (s.reserve_room v).customers = s.customers ∧
    ((∀ h ∈ s.hotels, h.hotel_id ≠ v.hotel_id) →
      (s.reserve_room v).hotels = s.hotels) := by
  refine ⟨rfl, rfl, rfl, ?_⟩
  intro hno
  have h1 : s.hotels.map (fun h =>
      if h.hotel_id = v.hotel_id then
        { h with reservations := h.reservations ++ [v.customer_id] }
      else h) = s.hotels.map id :=
    List.map_congr_left (fun h hh => by simp [if_neg (hno h hh)])
  calc (s.reserve_room v).hotels
      = s.hotels.map id := h1
    _ = s.hotels := List.map_id s.hotels

/-- Claim C2 witness: reserving in a store whose only hotel has id 2,
with a reservation whose hotel id is 5, leaves the hotel collection
unchanged (the reservation itself is still appended, per the first
conjunct at the same input). -/
theorem reserve_room_correct_witness :
    (({ hotels := [otherHotel], customers := [], reservations := [] } :
        HotelReservationSystem).reserve_room
      { reservation_id := 9, customer_id := 4, hotel_id := 5 }).hotels =
      [otherHotel] :=
  (reserve_room_correct
    { hotels := [otherHotel], customers := [], reservations := [] }
    { reservation_id := 9, customer_id := 4, hotel_id := 5 }).2.2.2
    (by decide)

/-- Claim C6: `delete_hotel` removes all hotels with matching id (a
filter over the whole collection), `delete_customer` symmetrically
removes all matching customers, and creating then deleting a customer by
its identifier makes a subsequent `display_customer` lookup return
`none` (this last part holds for every starting store, because the
delete filters out every match, including pre-existing ones). -/
theorem delete_filters_all (s : HotelReservationSystem) (i j : Int) :
    (s.delete_hotel i).hotels = s.hotels.filter (fun h => h.hotel_id != i) ∧
    (∀ h ∈ (s.delete_hotel i).hotels, h.hotel_id ≠ i) ∧
    (∀ h ∈ s.hotels, h.hotel_id ≠ i → h ∈ (s.delete_hotel i).hotels) ∧
    (s.delete_customer j).customers =
      s.customers.filter (fun c => c.customer_id != j) ∧
    (∀ c ∈ (s.delete_customer j).customers, c.customer_id ≠ j) ∧
    (∀ c : Customer,
      ((s.create_customer c).delete_customer c.customer_id).display_customer
        c.customer_id = none) := by
  refine ⟨rfl, ?_, ?_, rfl, ?_, ?_⟩
  · intro h hh
    simp only [HotelReservationSystem.delete_hotel, List.mem_filter,
      bne_iff_ne, ne_eq] at hh
    exact hh.2
  · intro h hh hne
    simp only [HotelReservationSystem.delete_hotel, List.mem_filter,
      bne_iff_ne, ne_eq]
    exact ⟨hh, hne⟩
  · intro c hc
    simp only [HotelReservationSystem.delete_customer, List.mem_filter,
      bne_iff_ne, ne_eq] at hc
    exact hc.2
  · intro c
    apply displayCustomerGo_eq_none
    intro c0 hc0
    simp only [HotelReservationSystem.delete_customer,
      HotelReservationSystem.create_customer, List.mem_filter,
      bne_iff_ne, ne_eq] at hc0
    exact hc0.2

/-- Claim C6 witness: deleting hotel id 1 from the sample store keeps the
hotel with id 2 and every surviving hotel has id different from 1;
creating then deleting the sample customer makes its lookup return
`none`. -/
theorem delete_filters_all_witness :
    otherHotel.hotel_id ≠ 1 ∧
    otherHotel ∈ (sampleSys.delete_hotel 1).hotels ∧
    ((sampleSys.create_customer sampleCustomer).delete_customer
        sampleCustomer.customer_id).display_customer
      sampleCustomer.customer_id = none :=
  ⟨(delete_filters_all sampleSys 1 1).2.1 otherHotel (by decide),
    (delete_filters_all sampleSys 1 1).2.2.1 otherHotel (by decide)
      (by decide),
    (delete_filters_all sampleSys 1 1).2.2.2.2.2 sampleCustomer⟩

/-- Claim C10: for every store state and hotel id `i`, `delete_hotel i`
leaves the customer and reservation collections unchanged; in particular
every reservation referencing hotel id `i` stays in the store while no
hotel with that reservation's hotel id remains — a dangling reference. -/
theorem delete_hotel_frame (s : HotelReservationSystem) (i : Int) :
    (s.delete_hotel i).customers = s.customers ∧
    (s.delete_hotel i).reservations = s.reservations ∧
    (∀ r ∈ s.reservations, r.hotel_id = i →
      r ∈ (s.delete_hotel i).reservations ∧
      ∀ h ∈ (s.delete_hotel i).hotels, h.hotel_id ≠ r.hotel_id) := by
  refine ⟨rfl, rfl, ?_⟩
  intro r hr hri
  refine ⟨hr, ?_⟩
  intro h hh
  simp only [HotelReservationSystem.delete_hotel, List.mem_filter,
    bne_iff_ne, ne_eq] at hh
  rw [hri]
  exact hh.2

/-- Claim C10 witness: deleting hotel id 1 from the sample store keeps
the reservation referencing hotel 1, and no remaining hotel has id 1. -/
theorem delete_hotel_frame_witness :
    sampleReservation ∈ (sampleSys.delete_hotel 1).reservations ∧
    ∀ h ∈ (sampleSys.delete_hotel 1).hotels,
      h.hotel_id ≠ sampleReservation.hotel_id :=
  (delete_hotel_frame sampleSys 1).2.2 sampleReservation (by decide) rfl

/-- Claim C3: `display_hotel i` returns the field mapping (`to_dict`) of
the first hotel in the collection whose id equals `i`, or `none` (a
not-found signal, never an error — the function is total) if none
matches; in particular creating a hotel whose id is not yet present and
then displaying it by its id returns exactly the created record's field
mapping. -/
theorem display_hotel_correct (s : HotelReservationSystem) (i : Int) :
    s.display_hotel i =
      (s.hotels.find? (fun h => h.hotel_id == i)).map Hotel.to_dict ∧
    ((∀ h ∈ s.hotels, h.hotel_id ≠ i) → s.display_hotel i = none) ∧
    (∀ ht : Hotel, (∀ h ∈ s.hotels, h.hotel_id ≠ ht.hotel_id) →
      (s.create_hotel ht).display_hotel ht.hotel_id = some ht.to_dict) := by
  refine ⟨displayHotelGo_eq_find s.hotels i,
    fun hno => displayHotelGo_eq_none s.hotels i hno, ?_⟩
  intro ht hno
  show displayHotelGo (s.hotels ++ [ht]) ht.hotel_id = some ht.to_dict
  rw [displayHotelGo_append s.hotels [ht] ht.hotel_id hno]
  simp [displayHotelGo]

/-- Claim C3 witness: in the empty store, displaying id 1 gives `none`;
after creating the sample hotel (id 1, name "Test Hotel", location
"Test City", rooms 10), displaying by its id returns its field
mapping. -/
theorem display_hotel_correct_witness :
    emptySys.display_hotel 1 = none ∧
    (emptySys.create_hotel sampleHotel).display_hotel sampleHotel.hotel_id =
      some sampleHotel.to_dict :=
  ⟨(display_hotel_correct emptySys 1).2.1 (by decide),
    (display_hotel_correct emptySys 1).2.2 sampleHotel (by decide)⟩

/-- Claim C4: calling `modify_hotel i` with only a (non-empty, hence
truthy) name supplied sets every matching hotel's name to it and leaves
every hotel's location and room count unchanged; a matching hotel's
record afterwards differs only in its name. -/
theorem modify_hotel_name_only (s : HotelReservationSystem) (i : Int)
    (nm : String) (hnm : nm ≠ "") :
    (s.modify_hotel i (some nm) none none).hotels = s.hotels.map (fun h =>
      if h.hotel_id = i then { h with name := nm } else h) ∧
    (s.modify_hotel i (some nm) none none).hotels.map Hotel.location =
      s.hotels.map Hotel.location ∧
    (s.modify_hotel i (some nm) none none).hotels.map Hotel.rooms =
      s.hotels.map Hotel.rooms ∧
    (∀ h ∈ s.hotels, h.hotel_id = i →
      { h with name := nm } ∈ (s.modify_hotel i (some nm) none none).hotels) := by
  have hb : (nm != "") = true := bne_iff_ne.mpr hnm
  have e1 : (s.modify_hotel i (some nm) none none).hotels =
      s.hotels.map (fun h =>
        if h.hotel_id = i then { h with name := nm } else h) := by
    apply List.map_congr_left
    intro h _
    by_cases hc : h.hotel_id = i
    · simp [if_pos hc, applyStrField, applyIntField, hb]
    · simp [if_neg hc]
  refine ⟨e1, ?_, ?_, ?_⟩
  · rw [e1, List.map_map]
    apply List.map_congr_left
    intro h _
    by_cases hc : h.hotel_id = i <;> simp [hc]
  · rw [e1, List.map_map]
    apply List.map_congr_left
    intro h _
    by_cases hc : h.hotel_id = i <;> simp [hc]
  · intro h hh hc
    rw [e1]
    exact List.mem_map.mpr ⟨h, hh, by rw [if_pos hc]⟩

/-- Claim C4 witness: in the sample store modified as in the source's
`test_modify_hotel`, renaming hotel id 1 to "Updated Hotel" updates the
matching hotel's name only, and the room counts are unchanged. -/
theorem modify_hotel_name_only_witness :
    (sampleSys.modify_hotel 1 (some "Updated Hotel") none none).hotels =
      sampleSys.hotels.map (fun h =>
        if h.hotel_id = 1 then { h with name := "Updated Hotel" } else h) ∧
    (sampleSys.modify_hotel 1 (some "Updated Hotel") none none).hotels.map
      Hotel.rooms = sampleSys.hotels.map Hotel.rooms :=
  ⟨(modify_hotel_name_only sampleSys 1 "Updated Hotel" (by decide)).1,
    (modify_hotel_name_only sampleSys 1 "Updated Hotel" (by decide)).2.2.1⟩

/-- Claim C5: `modify_hotel` applies its update to every hotel whose id
matches (not just the first); truthy arguments overwrite exactly the
corresponding fields, and a falsy argument (`rooms = 0`, empty name or
location) is indistinguishable from an absent one: supplying all-falsy
values is the same as supplying nothing, which leaves the store
unchanged. -/
theorem modify_hotel_partial_update (s : HotelReservationSystem) (i : Int) :
    (∀ (nm loc : String) (rm : Int), nm ≠ "" → loc ≠ "" → rm ≠ 0 →
      (s.modify_hotel i (some nm) (some loc) (some rm)).hotels =
        s.hotels.map (fun h => if h.hotel_id = i then
          { h with name := nm, location := loc, rooms := rm } else h)) ∧
    s.modify_hotel i (some "") (some "") (some 0) =
      s.modify_hotel i none none none ∧
    s.modify_hotel i none none none = s := by
  refine ⟨?_, rfl, ?_⟩
  · intro nm loc rm hnm hloc hrm
    apply List.map_congr_left
    intro h _
    by_cases hc : h.hotel_id = i
    · simp [if_pos hc, applyStrField, applyIntField,
        bne_iff_ne.mpr hnm, bne_iff_ne.mpr hloc, bne_iff_ne.mpr hrm]
    · simp [if_neg hc]
  · show { s with hotels := _ } = s
    have e : s.hotels.map (fun h =>
        if h.hotel_id = i then
          { h with name := applyStrField none h.name,
                   location := applyStrField none h.location,
                   rooms := applyIntField none h.rooms }
        else h) = s.hotels := by
      have e2 : s.hotels.map (fun h =>
          if h.hotel_id = i then
            { h with name := applyStrField none h.name,
                     location := applyStrField none h.location,
                     rooms := applyIntField none h.rooms }
          else h) = s.hotels.map id :=
        List.map_congr_left (fun h _ => by
          by_cases hc : h.hotel_id = i
          · rw [if_pos hc]
            rfl
          · rw [if_neg hc]
            rfl)
      rw [e2, List.map_id]
    rw [e]

/-- Claim C5 witness: in a store holding two distinct hotels that share
id 1, a truthy update rewrites both matching hotels, and the all-falsy
update (empty strings, zero rooms) is the identity. -/
theorem modify_hotel_partial_update_witness :
    (({ hotels := [sampleHotel, dupHotel], customers := [],
        reservations := [] } :
          HotelReservationSystem).modify_hotel 1 (some "N") (some "L")
        (some 4)).hotels =
      [sampleHotel, dupHotel].map (fun h => if h.hotel_id = 1 then
        { h with name := "N", location := "L", rooms := 4 } else h) ∧
    ({ hotels := [sampleHotel, dupHotel], customers := [],
        reservations := [] } :
          HotelReservationSystem).modify_hotel 1 (some "") (some "")
        (some 0) =
      { hotels := [sampleHotel, dupHotel], customers := [],
        reservations := [] } :=
  ⟨(modify_hotel_partial_update
      { hotels := [sampleHotel, dupHotel], customers := [],
        reservations := [] } 1).1 "N" "L" 4 (by decide) (by decide)
      (by decide),
    ((modify_hotel_partial_update
      { hotels := [sampleHotel, dupHotel], customers := [],
        reservations := [] } 1).2.1).trans
      ((modify_hotel_partial_update
        { hotels := [sampleHotel, dupHotel], customers := [],
          reservations := [] } 1).2.2)⟩

/-- Claim C7: `load_from_file` returns the stored sequence when the file
holds a JSON array; a nonexistent file yields an empty sequence with no
diagnostic; content whose decoding fails yields an empty sequence with a
diagnostic.  The function is total (it is a plain Lean function over all
file states), so loading never raises. -/
theorem load_from_file_safe :
    (∀ l : List Json,
      DataManager.load_from_file (some (FileContent.json (Json.arr l))) =
        { value := Json.arr l, diagnostic := false }) ∧
    DataManager.load_from_file none =
      { value := Json.arr [], diagnostic := false } ∧
    DataManager.load_from_file (some FileContent.malformed) =
      { value := Json.arr [], diagnostic := true } :=
  ⟨fun _ => rfl, rfl, rfl⟩

/-- Claim C8 counterexample: a file holding the valid JSON value `{}` —
not an array — is NOT treated as empty: `load_from_file` returns the
parsed object itself and emits no diagnostic, contradicting the claim
that any valid-JSON-but-not-an-array content yields an empty collection
with a diagnostic. -/
theorem load_nonarray_counterexample :
    DataManager.load_from_file (some (FileContent.json (Json.obj []))) =
      { value := Json.obj [], diagnostic := false } ∧
    (DataManager.load_from_file
        (some (FileContent.json (Json.obj [])))).value ≠ Json.arr [] ∧
    (DataManager.load_from_file
        (some (FileContent.json (Json.obj [])))).diagnostic = false := by
  refine ⟨rfl, ?_, rfl⟩
  intro h
  exact Json.noConfusion h

/-- Claim C8 (amended): only content on which JSON decoding (or reading)
fails is treated as empty with a diagnostic; any successfully decoded
JSON value — array or not — is returned as parsed, with no diagnostic.
In neither case is the condition fatal (the function is total). -/
theorem load_decode_failure_amended :
    DataManager.load_from_file (some FileContent.malformed) =
      { value := Json.arr [], diagnostic := true } ∧
    DataManager.load_from_file none =
      { value := Json.arr [], diagnostic := false } ∧
    (∀ j : Json, DataManager.load_from_file (some (FileContent.json j)) =
      { value := j, diagnostic := false }) :=
  ⟨rfl, rfl, fun _ => rfl⟩

/-- Claim C9: saving a collection of records (as dictionaries) and
loading from the same file returns exactly that JSON array, with no
diagnostic; composing with the record-to-dictionary and
dictionary-to-record conversions recovers every record of each of the
three kinds, in order — save followed by load is the identity on record
collections. -/
theorem persistence_roundtrip (hl : List Hotel) (cl : List Customer)
    (rl : List Reservation) :
    DataManager.load_from_file
        (some (DataManager.save_to_file (hl.map Hotel.to_dict))) =
      { value := Json.arr (hl.map Hotel.to_dict), diagnostic := false } ∧
    (hl.map Hotel.to_dict).map Hotel.from_dict = hl.map some ∧
    (cl.map Customer.to_dict).map Customer.from_dict = cl.map some ∧
    (rl.map Reservation.to_dict).map Reservation.from_dict = rl.map some := by
  refine ⟨rfl, ?_, ?_, ?_⟩
  · rw [List.map_map]
    exact List.map_congr_left (fun h _ => hotel_from_to_dict h)
  · rw [List.map_map]
    exact List.map_congr_left (fun c _ => customer_from_to_dict c)
  · rw [List.map_map]
    exact List.map_congr_left (fun r _ => reservation_from_to_dict r)
